import Mathlib

/-!
Verification development for the paper-insight single-page application
(source: src/src/App.jsx).  The orchestration layer is shallowly embedded:
each event handler of the component becomes a pure state-transition
function, with the network round-trip abstracted as an `Except` argument
(the remote service is an opaque external capability).  Browser builtins
used by the source (`JSON.parse`, `atob`) are modelled as executable Lean
functions faithful to their standard behaviour.
-/

namespace PaperInsight

/-! ## JavaScript values

JSON values as produced by the builtin `JSON.parse`, extended with the
`undef` constructor for JavaScript's `undefined` (which optional chaining
such as `a.web?.uri` can produce).  Numbers keep their source lexeme: no
claim inspects a numeric value, and this avoids floating point. -/

inductive Json where
  | null : Json
  | bool (b : Bool) : Json
  | num (lexeme : String) : Json
  | str (s : String) : Json
  | arr (elems : List Json) : Json
  | obj (fields : List (String × Json)) : Json
  | undef : Json
deriving Repr

/-- Structural equality test for `Json` (written by hand: the nested
`List` occurrences defeat automatic deriving of `DecidableEq`). -/
def Json.beq : Json → Json → Bool
  | .null, .null => true
  | .bool a, .bool b => a == b
  | .num a, .num b => a == b
  | .str a, .str b => a == b
  | .arr a, .arr b => beqList a b
  | .obj a, .obj b => beqFields a b
  | .undef, .undef => true
  | _, _ => false
where
  beqList : List Json → List Json → Bool
    | [], [] => true
    | x :: xs, y :: ys => x.beq y && beqList xs ys
    | _, _ => false
  beqFields : List (String × Json) → List (String × Json) → Bool
    | [], [] => true
    | (k, v) :: xs, (l, w) :: ys => k == l && v.beq w && beqFields xs ys
    | _, _ => false

/-! ## JSON.parse

A strict recursive-descent parser over the character list, faithful to the
JSON grammar accepted by the builtin `JSON.parse`: optional whitespace
around tokens, the literals `null`/`true`/`false`, decimal numbers,
double-quoted strings with the standard escapes, arrays and objects; the
whole input must be consumed.  Recursion is fuelled by the input length. -/

def isJsonWs (c : Char) : Bool :=
  c = ' ' || c = '\t' || c = '\n' || c = '\r'

def skipWs : List Char → List Char
  | [] => []
  | c :: cs => if isJsonWs c then skipWs cs else c :: cs

def isDigit (c : Char) : Bool := '0' ≤ c && c ≤ '9'

/-- Consume a nonempty run of decimal digits. -/
def takeDigits : List Char → List Char × List Char
  | [] => ([], [])
  | c :: cs =>
    if isDigit c then
      let (ds, rest) := takeDigits cs
      (c :: ds, rest)
    else ([], c :: cs)

/-- Parse the integer part of a JSON number: `0`, or a nonzero digit
followed by digits. -/
def parseIntPart : List Char → Option (List Char × List Char)
  | [] => none
  | c :: cs =>
    if c = '0' then some ([c], cs)
    else if isDigit c then
      let (ds, rest) := takeDigits cs
      some (c :: ds, rest)
    else none

/-- Parse the optional fraction part `.digits`. -/
def parseFracPart (cs : List Char) : Option (List Char × List Char) :=
  match cs with
  | '.' :: cs' =>
    match takeDigits cs' with
    | ([], _) => none
    | (ds, rest) => some ('.' :: ds, rest)
  | _ => some ([], cs)

/-- Parse the optional exponent part `e|E [+|-] digits`. -/
def parseExpPart (cs : List Char) : Option (List Char × List Char) :=
  match cs with
  | c :: cs' =>
    if c = 'e' || c = 'E' then
      match cs' with
      | s :: cs'' =>
        if s = '+' || s = '-' then
          match takeDigits cs'' with
          | ([], _) => none
          | (ds, rest) => some (c :: s :: ds, rest)
        else
          match takeDigits cs' with
          | ([], _) => none
          | (ds, rest) => some (c :: ds, rest)
      | [] => none
    else some ([], cs)
  | [] => some ([], cs)

/-- Parse a JSON number lexeme (optional minus, integer part, optional
fraction, optional exponent). -/
def parseNumber (cs : List Char) : Option (String × List Char) :=
  let (sign, cs₁) :=
    match cs with
    | '-' :: rest => ([('-' : Char)], rest)
    | _ => ([], cs)
  match parseIntPart cs₁ with
  | none => none
  | some (ip, cs₂) =>
    match parseFracPart cs₂ with
    | none => none
    | some (fp, cs₃) =>
      match parseExpPart cs₃ with
      | none => none
      | some (ep, cs₄) => some (String.mk (sign ++ ip ++ fp ++ ep), cs₄)

def hexVal (c : Char) : Option Nat :=
  if '0' ≤ c && c ≤ '9' then some (c.toNat - 48)
  else if 'a' ≤ c && c ≤ 'f' then some (c.toNat - 97 + 10)
  else if 'A' ≤ c && c ≤ 'F' then some (c.toNat - 65 + 10)
  else none

/-- The character denoted by a single-character JSON string escape. -/
def escChar (e : Char) : Option Char :=
  if e = '"' then some '"'
  else if e = '\\' then some '\\'
  else if e = '/' then some '/'
  else if e = 'b' then some '\x08'
  else if e = 'f' then some '\x0c'
  else if e = 'n' then some '\n'
  else if e = 'r' then some '\r'
  else if e = 't' then some '\t'
  else none

/-- Parse the body of a JSON string after the opening quote, returning the
decoded characters and the input after the closing quote.  Escapes follow
the JSON grammar; a `\uXXXX` that is not a Unicode scalar value (a lone
surrogate, representable in a JavaScript string but not in a Lean `Char`)
is mapped to U+FFFD. -/
def parseStringBody : List Char → Option (List Char × List Char)
  | [] => none
  | c :: cs =>
    if c = '"' then some ([], cs)
    else if c = '\\' then
      match cs with
      | 'u' :: h1 :: h2 :: h3 :: h4 :: cs'' =>
        match hexVal h1, hexVal h2, hexVal h3, hexVal h4 with
        | some a, some b, some c', some d =>
          let n := ((a * 16 + b) * 16 + c') * 16 + d
          let ch := if Nat.isValidChar n then Char.ofNat n else '�'
          match parseStringBody cs'' with
          | none => none
          | some (tail, rest) => some (ch :: tail, rest)
        | _, _, _, _ => none
      | e :: cs' =>
        match escChar e with
        | none => none
        | some ch =>
          match parseStringBody cs' with
          | none => none
          | some (tail, rest) => some (ch :: tail, rest)
      | [] => none
    else if c.toNat < 32 then none
    else
      match parseStringBody cs with
      | none => none
      | some (tail, rest) => some (c :: tail, rest)

mutual

/-- Parse one JSON value (fuelled). -/
def parseValue : Nat → List Char → Option (Json × List Char)
  | 0, _ => none
  | fuel + 1, cs =>
    match skipWs cs with
    | [] => none
    | c :: cs' =>
      if c = 'n' then
        match cs' with
        | 'u' :: 'l' :: 'l' :: rest => some (.null, rest)
        | _ => none
      else if c = 't' then
        match cs' with
        | 'r' :: 'u' :: 'e' :: rest => some (.bool true, rest)
        | _ => none
      else if c = 'f' then
        match cs' with
        | 'a' :: 'l' :: 's' :: 'e' :: rest => some (.bool false, rest)
        | _ => none
      else if c = '"' then
        match parseStringBody cs' with
        | none => none
        | some (body, rest) => some (.str (String.mk body), rest)
      else if c = '-' || isDigit c then
        match parseNumber (c :: cs') with
        | none => none
        | some (lex, rest) => some (.num lex, rest)
      else if c = '[' then
        match skipWs cs' with
        | ']' :: rest => some (.arr [], rest)
        | cs'' => parseElems fuel cs''
      else if c = '\x7b' then
        match skipWs cs' with
        | '\x7d' :: rest => some (.obj [], rest)
        | cs'' => parseMembers fuel cs''
      else none

/-- Parse the elements of a nonempty array, up to and including `]`. -/
def parseElems : Nat → List Char → Option (Json × List Char)
  | 0, _ => none
  | fuel + 1, cs =>
    match parseValue fuel cs with
    | none => none
    | some (v, rest) =>
      match skipWs rest with
      | ',' :: rest' =>
        match parseElems fuel rest' with
        | some (.arr vs, rest'') => some (.arr (v :: vs), rest'')
        | _ => none
      | ']' :: rest' => some (.arr [v], rest')
      | _ => none

/-- Parse the members of a nonempty object, up to and including the
closing brace. -/
def parseMembers : Nat → List Char → Option (Json × List Char)
  | 0, _ => none
  | fuel + 1, cs =>
    match skipWs cs with
    | '"' :: cs' =>
      match parseStringBody cs' with
      | none => none
      | some (key, rest) =>
        match skipWs rest with
        | ':' :: rest' =>
          match parseValue fuel rest' with
          | none => none
          | some (v, rest'') =>
            match skipWs rest'' with
            | ',' :: rest''' =>
              match parseMembers fuel rest''' with
              | some (.obj ms, r) => some (.obj ((String.mk key, v) :: ms), r)
              | _ => none
            | '\x7d' :: rest''' => some (.obj [(String.mk key, v)], rest''')
            | _ => none
        | _ => none
    | _ => none

end

/-- Model of the builtin `JSON.parse`, as invoked by `processPaper` on the
model reply: `none` models the thrown `SyntaxError` (the whole input,
modulo surrounding whitespace, must be one JSON value). -/
def jsonParse (s : String) : Option Json :=
  match parseValue (s.data.length + 1) s.data with
  | none => none
  | some (v, rest) =>
    match skipWs rest with
    | [] => some v
    | _ => none

/-! ## atob and the audio container encoder

`pcmToWav` (src/src/App.jsx:177-196) decodes its base64 argument with the
builtin `atob`, then writes a 44-byte RIFF/WAVE header with a `DataView`
(all multi-byte fields little-endian) followed by the decoded PCM bytes.
`atob` is modelled by the WHATWG forgiving-base64 decode; `none` models
the thrown `InvalidCharacterError`. -/

def isAsciiWs (c : Char) : Bool :=
  c = ' ' || c = '\t' || c = '\n' || c = '\r' || c = '\x0c'

/-- Position of a character in the standard base64 alphabet. -/
def b64Index (c : Char) : Option Nat :=
  if 'A' ≤ c && c ≤ 'Z' then some (c.toNat - 65)
  else if 'a' ≤ c && c ≤ 'z' then some (c.toNat - 97 + 26)
  else if '0' ≤ c && c ≤ '9' then some (c.toNat - 48 + 52)
  else if c = '+' then some 62
  else if c = '/' then some 63
  else none

/-- Strip one or two trailing padding characters. -/
def stripPad (cs : List Char) : List Char :=
  match cs.reverse with
  | '=' :: '=' :: rest => rest.reverse
  | '=' :: rest => rest.reverse
  | _ => cs

/-- Streaming 6-bit-to-8-bit regrouping: `buf` holds `bits` pending bits;
whenever eight or more are available the top eight become an output byte.
Left-over bits of a final partial group are discarded (forgiving decode). -/
def b64Decode : List Char → Nat → Nat → Option (List Nat)
  | [], _, _ => some []
  | c :: cs, buf, bits =>
    match b64Index c with
    | none => none
    | some v =>
      let buf' := buf * 64 + v
      let bits' := bits + 6
      if 8 ≤ bits' then
        match b64Decode cs (buf' % 2 ^ (bits' - 8)) (bits' - 8) with
        | none => none
        | some out => some (buf' / 2 ^ (bits' - 8) :: out)
      else
        b64Decode cs buf' bits'

/-- Model of the builtin `atob` (WHATWG forgiving-base64 decode): remove
ASCII whitespace, strip up to two `=` padding characters when the length
is a multiple of four, reject a remainder-1 length or any character
outside the alphabet, and regroup the 6-bit values into bytes. -/
def atob (s : String) : Option (List Nat) :=
  let cs := s.data.filter (fun c => !(isAsciiWs c))
  let cs := if cs.length % 4 = 0 then stripPad cs else cs
  if cs.length % 4 = 1 then none
  else b64Decode cs 0 0

/-- Little-endian bytes of a 16-bit field, as `DataView.setUint16` with
`littleEndian = true` stores them (the value is taken modulo 2^16). -/
def le16 (v : Nat) : List Nat :=
  [v % 256, v / 256 % 256]

/-- Little-endian bytes of a 32-bit field, as `DataView.setUint32` with
`littleEndian = true` stores them (the value is taken modulo 2^32). -/
def le32 (v : Nat) : List Nat :=
  [v % 256, v / 256 % 256, v / 65536 % 256, v / 16777216 % 256]

/-- Byte written for each character of a header tag, as `writeString`
stores `charCodeAt` values. -/
def asciiBytes (s : String) : List Nat :=
  s.data.map Char.toNat

/-- The 44-byte header `pcmToWav` writes for `n` PCM bytes at sample rate
`sampleRate`, field by field in source order. -/
def wavHeader (n sampleRate : Nat) : List Nat :=
  asciiBytes "RIFF" ++ le32 (36 + n) ++ asciiBytes "WAVE" ++
  asciiBytes "fmt " ++ le32 16 ++ le16 1 ++ le16 1 ++
  le32 sampleRate ++ le32 (sampleRate * 2) ++ le16 2 ++ le16 16 ++
  asciiBytes "data" ++ le32 n

/-- `pcmToWav` (src/src/App.jsx:177-196): decode the base64 payload and
prepend the RIFF/WAVE header; `none` models the `atob` throw on malformed
base64. -/
def pcmToWav (base64 : String) (sampleRate : Nat) : Option (List Nat) :=
  (atob base64).map (fun pcm => wavHeader pcm.length sampleRate ++ pcm)

/-- Little-endian read-back of a 16-bit header field (bytes past the end
of the buffer read as 0). -/
def readLE16 (w : List Nat) (off : Nat) : Nat :=
  match w.drop off with
  | b0 :: b1 :: _ => b0 + 256 * b1
  | [b0] => b0
  | [] => 0

/-- Little-endian read-back of a 32-bit header field (only called at
offsets with four bytes available). -/
def readLE32 (w : List Nat) (off : Nat) : Nat :=
  match w.drop off with
  | b0 :: b1 :: b2 :: b3 :: _ => b0 + 256 * b1 + 65536 * b2 + 16777216 * b3
  | _ => 0

/-! ## Component state

The `useState` hooks of the component (src/src/App.jsx:12-31), with the
remote service abstracted away: each handler becomes a pure function of
the pre-state and of the outcome of its network round-trip, returned as
the post-state (plus, where a claim needs it, whether a remote call was
issued and what follow-up work was spawned). -/

/-- One entry of `chatMessages`: `role` is `"user"` or `"model"`. -/
structure ChatMessage where
  role : String
  text : String
deriving Repr, DecidableEq

/-- The `result` state object.  Fields hold the JavaScript values the
handlers store in them: initially `summary` and `translation` are the
empty string and `evidence` and `relatedInfo` are `null`
(src/src/App.jsx:18). -/
structure AnalysisResult where
  summary : Json
  translation : Json
  evidence : Json
  relatedInfo : Json
deriving Repr

/-- The `appSettings` state object (src/src/App.jsx:26-31). -/
structure AppSettings where
  summaryLength : String
  ttsVoice : String
  enableWebSearch : Bool
  targetLanguage : String
deriving Repr, DecidableEq

/-- The component state relevant to the orchestration layer. -/
structure AppState where
  activeTab : String
  inputText : String
  selectedImage : Option String
  loading : Bool
  statusMessage : String
  result : AnalysisResult
  chatMessages : List ChatMessage
  userQuestion : String
  generatedImage : Option String
  isAudioPlaying : Bool
  appSettings : AppSettings
deriving Repr

/-- The initial `result` value (src/src/App.jsx:18). -/
def initResult : AnalysisResult :=
  { summary := .str "", translation := .str "", evidence := .null,
    relatedInfo := .null }

/-- The initial component state (src/src/App.jsx:12-31). -/
def initState : AppState :=
  { activeTab := "input", inputText := "", selectedImage := none,
    loading := false, statusMessage := "", result := initResult,
    chatMessages := [], userQuestion := "", generatedImage := none,
    isAudioPlaying := false,
    appSettings := { summaryLength := "detailed", ttsVoice := "Aoede",
                     enableWebSearch := true, targetLanguage := "日本語" } }

/-- JavaScript truthiness of the values that occur in the state (the
`num` case tests whether the lexeme denotes zero). -/
def jsTruthy : Json → Bool
  | .null => false
  | .undef => false
  | .bool b => b
  | .str s => !s.isEmpty
  | .num lex => !((lex.data.filter isDigit).all (fun c => c = '0'))
  | .arr _ => true
  | .obj _ => true

/-- Property lookup on a parsed JavaScript value, as the spread
`\x7b...prev, ...parsed\x7d` sees its own properties: only objects
contribute named properties, and for duplicate JSON keys the last
occurrence wins (as in `JSON.parse`). -/
def jsonGet (j : Json) (k : String) : Option Json :=
  match j with
  | .obj fields =>
    fields.foldl (fun acc p => if p.1 = k then some p.2 else acc) none
  | _ => none

/-- The spread merge `setResult(prev => (\x7b ...prev, ...parsed \x7d))`
performed by `processPaper` (src/src/App.jsx:88), restricted to the four
properties the state record holds: a property present on `parsed`
overrides, a property absent from `parsed` keeps its previous value. -/
def mergeParsed (prev : AnalysisResult) (parsed : Json) : AnalysisResult :=
  { summary := (jsonGet parsed "summary").getD prev.summary,
    translation := (jsonGet parsed "translation").getD prev.translation,
    evidence := (jsonGet parsed "evidence").getD prev.evidence,
    relatedInfo := (jsonGet parsed "relatedInfo").getD prev.relatedInfo }

/-! ## Backoff transport

`fetchWithRetry` (src/src/App.jsx:41-50).  The underlying `fetch` is
abstracted as `transport : Nat → Nat`, giving the HTTP status returned on
each attempt (attempts are numbered by `retryCount`).  The model returns
the final status together with the number of transport calls made and the
total delay slept in milliseconds (`Math.pow(2, retryCount) * 1000`). -/

def apiKeyMissingMsg : String :=
  "APIキーが未設定です。Vercelの環境変数を確認してください。"

def fetchWithRetry (apiKey : String) (transport : Nat → Nat)
    (retryCount : Nat) : Except String (Nat × Nat × Nat) :=
  if apiKey = "" then .error apiKeyMissingMsg
  else
    let status := transport retryCount
    if h : status = 429 ∧ retryCount < 5 then
      match fetchWithRetry apiKey transport (retryCount + 1) with
      | .error e => .error e
      | .ok (st, calls, delay) =>
        .ok (st, calls + 1, delay + 2 ^ retryCount * 1000)
    else .ok (status, 1, 0)
termination_by 5 - retryCount
decreasing_by omega

/-! ## Orchestration handlers -/

def emptyInputMsg : String := "論文を入力してください"

def analyzingMsg : String := "論文を多角的に解析中..."

def analyzeFailMsg : String := "解析に失敗しました。APIキーを確認してください。"

/-- `processPaper` (src/src/App.jsx:52-100).  `reply` abstracts the whole
remote round-trip `fetchWithRetry` + `response.json()` + extraction of
`data.candidates[0].content.parts[0].text`: `.ok t` is the model reply
text, `.error ()` any throw along the way.  Returns the post-state,
whether a remote call was issued, and the parsed payload passed to
`searchRelatedWorks` when that call is spawned (web search enabled).
The state is the one at settlement of the handler; the 3-second
`setTimeout` that later clears `statusMessage` is not part of it. -/
def processPaper (s : AppState) (reply : Except Unit String) :
    AppState × Bool × Option Json :=
  if s.inputText = "" ∧ s.selectedImage = none then
    ({ s with statusMessage := emptyInputMsg }, false, none)
  else
    let s₁ := { s with loading := true, statusMessage := analyzingMsg }
    match reply with
    | .error _ =>
      ({ s₁ with statusMessage := analyzeFailMsg, loading := false },
       true, none)
    | .ok t =>
      match jsonParse t with
      | none =>
        ({ s₁ with statusMessage := analyzeFailMsg, loading := false },
         true, none)
      | some parsed =>
        ({ s₁ with result := mergeParsed s₁.result parsed,
                   activeTab := "result", loading := false },
         true,
         if s.appSettings.enableWebSearch then some parsed else none)

def searchingMsg : String := "最新の関連動向をWeb検索中..."

/-- The `relatedInfo` object `searchRelatedWorks` stores: `text` and the
mapped grounding attributions (optional chaining yields `undefined` for a
missing `uri` or `title`). -/
def relatedInfoJson (text : String)
    (sources : List (Option String × Option String)) : Json :=
  .obj [("text", .str text),
        ("sources", .arr (sources.map (fun p =>
          .obj [("uri", (p.1.map Json.str).getD .undef),
                ("title", (p.2.map Json.str).getD .undef)])))]

/-- `searchRelatedWorks` (src/src/App.jsx:102-123).  `currentResult` is
the argument the caller passes (the parsed payload of the analysis this
search was started for); it only feeds the prompt of the remote call,
which is abstracted into `reply` (`.ok` carries the reply text and the
mapped grounding attributions, `.error ()` any throw, which the handler
catches and only logs).  `finally` clears the status message. -/
def searchRelatedWorks (s : AppState) (currentResult : Option Json)
    (reply : Except Unit (String × List (Option String × Option String))) :
    AppState :=
  let s₁ := { s with statusMessage := searchingMsg }
  match reply with
  | .ok (text, sources) =>
    { s₁ with
      result := { s₁.result with relatedInfo := relatedInfoJson text sources },
      statusMessage := "" }
  | .error _ => { s₁ with statusMessage := "" }

def apologyMsg : String := "エラーが発生しました。"

/-- Whitespace as the builtin `String.prototype.trim` removes it (the
characters of the WhiteSpace and LineTerminator productions). -/
def isJsSpace (c : Char) : Bool :=
  c = ' ' || c = '\t' || c = '\n' || c = '\r' ||
  c = '\x0b' || c = '\x0c' || c = '\u00A0' || c = '\u2028' ||
  c = '\u2029' || c = '\uFEFF'

/-- Model of the builtin `String.prototype.trim`: remove leading and
trailing whitespace. -/
def jsTrim (s : String) : String :=
  String.mk (((s.data.dropWhile isJsSpace).reverse.dropWhile
    isJsSpace).reverse)

/-- `askQuestion` (src/src/App.jsx:198-224): blank (all-whitespace)
questions are ignored; otherwise one user message is appended, the
question box cleared, and after the round-trip one model message is
appended — the reply text on success, the apology string on any throw. -/
def askQuestion (s : AppState) (reply : Except Unit String) : AppState :=
  if jsTrim s.userQuestion = "" then s
  else
    let q := s.userQuestion
    let s₁ := { s with
                chatMessages := s.chatMessages ++ [ChatMessage.mk "user" q],
                userQuestion := "", loading := true }
    match reply with
    | .ok t =>
      { s₁ with
        chatMessages := s₁.chatMessages ++ [ChatMessage.mk "model" t],
        loading := false }
    | .error _ =>
      { s₁ with
        chatMessages := s₁.chatMessages ++ [ChatMessage.mk "model" apologyMsg],
        loading := false }

def audioFailMsg : String := "音声生成に失敗しました"

/-- `playSummaryAudio` (src/src/App.jsx:147-175): a no-op while a playback
is active; otherwise sets the playing flag, performs the remote call
(abstracted: `.ok b64` is the inline base64 audio payload, `.error ()`
any transport/extraction throw), pipes the payload through `pcmToWav` at
24000 Hz, and starts playback.  Any throw — including `atob` rejecting
the base64 — is caught, resetting the flag and setting a status message.
Returns the post-state, whether a remote call was issued, and the WAV
bytes handed to the `Audio` element when playback starts. -/
def playSummaryAudio (s : AppState) (reply : Except Unit String) :
    AppState × Bool × Option (List Nat) :=
  if s.isAudioPlaying then (s, false, none)
  else
    let s₁ := { s with isAudioPlaying := true }
    match reply with
    | .error _ =>
      ({ s₁ with isAudioPlaying := false, statusMessage := audioFailMsg },
       true, none)
    | .ok b64 =>
      match pcmToWav b64 24000 with
      | none =>
        ({ s₁ with isAudioPlaying := false, statusMessage := audioFailMsg },
         true, none)
      | some wav => (s₁, true, some wav)

/-- The `text` property of a stored `relatedInfo` object, as the display
layer reads it. -/
def relatedText (j : Json) : Option String :=
  match jsonGet j "text" with
  | some (.str s) => some s
  | _ => none

/-! ## Claims -/

set_option maxHeartbeats 1600000 in
/-- Claim C1: for every base64 input that decodes to `n` PCM bytes and
every sample rate (within the 32-bit range of the header fields),
`pcmToWav` returns a buffer of exactly `44 + n` bytes whose bytes [0:4]
are "RIFF", [8:12] are "WAVE", [36:40] are "data", whose little-endian
32-bit field at offset 4 is `36 + n` and at offset 40 is `n`, with format
tag 1 (PCM), 1 channel, the given sample rate, byte rate
`sampleRate * 2`, block align 2, 16 bits per sample, followed immediately
by the decoded PCM bytes. -/
theorem pcmToWav_wav_layout (base64 : String) (pcm : List Nat)
    (sampleRate : Nat) (hdec : atob base64 = some pcm)
    (hn : 36 + pcm.length < 4294967296)
    (hr : sampleRate * 2 < 4294967296) :
    ∃ w, pcmToWav base64 sampleRate = some w ∧
      w.length = 44 + pcm.length ∧
      w.take 4 = asciiBytes "RIFF" ∧
      (w.drop 8).take 4 = asciiBytes "WAVE" ∧
      (w.drop 36).take 4 = asciiBytes "data" ∧
      readLE32 w 4 = 36 + pcm.length ∧
      readLE32 w 40 = pcm.length ∧
      readLE16 w 20 = 1 ∧
      readLE16 w 22 = 1 ∧
      readLE32 w 24 = sampleRate ∧
      readLE32 w 28 = sampleRate * 2 ∧
      readLE16 w 32 = 2 ∧
      readLE16 w 34 = 16 ∧
      w.drop 44 = pcm := by
  refine ⟨wavHeader pcm.length sampleRate ++ pcm, ?_, ?_, rfl, rfl, rfl,
    ?_, ?_, rfl, rfl, ?_, ?_, rfl, rfl, rfl⟩
  · simp [pcmToWav, hdec]
  · rw [List.length_append]
    rfl
  · have e : readLE32 (wavHeader pcm.length sampleRate ++ pcm) 4 =
        (36 + pcm.length) % 256 + 256 * ((36 + pcm.length) / 256 % 256) +
        65536 * ((36 + pcm.length) / 65536 % 256) +
        16777216 * ((36 + pcm.length) / 16777216 % 256) := rfl
    rw [e]
    omega
  · have e : readLE32 (wavHeader pcm.length sampleRate ++ pcm) 40 =
        pcm.length % 256 + 256 * (pcm.length / 256 % 256) +
        65536 * (pcm.length / 65536 % 256) +
        16777216 * (pcm.length / 16777216 % 256) := rfl
    rw [e]
    omega
  · have e : readLE32 (wavHeader pcm.length sampleRate ++ pcm) 24 =
        sampleRate % 256 + 256 * (sampleRate / 256 % 256) +
        65536 * (sampleRate / 65536 % 256) +
        16777216 * (sampleRate / 16777216 % 256) := rfl
    rw [e]
    omega
  · have e : readLE32 (wavHeader pcm.length sampleRate ++ pcm) 28 =
        sampleRate * 2 % 256 + 256 * (sampleRate * 2 / 256 % 256) +
        65536 * (sampleRate * 2 / 65536 % 256) +
        16777216 * (sampleRate * 2 / 16777216 % 256) := rfl
    rw [e]
    omega

/-- Witness for C1 at the base64 input "AAEC", which decodes to the three
PCM bytes 0, 1, 2, at sample rate 24000. -/
theorem pcmToWav_wav_layout_witness :
    ∃ w, pcmToWav "AAEC" 24000 = some w ∧
      w.length = 44 + ([0, 1, 2] : List Nat).length ∧
      w.take 4 = asciiBytes "RIFF" ∧
      (w.drop 8).take 4 = asciiBytes "WAVE" ∧
      (w.drop 36).take 4 = asciiBytes "data" ∧
      readLE32 w 4 = 36 + ([0, 1, 2] : List Nat).length ∧
      readLE32 w 40 = ([0, 1, 2] : List Nat).length ∧
      readLE16 w 20 = 1 ∧
      readLE16 w 22 = 1 ∧
      readLE32 w 24 = 24000 ∧
      readLE32 w 28 = 24000 * 2 ∧
      readLE16 w 32 = 2 ∧
      readLE16 w 34 = 16 ∧
      w.drop 44 = [0, 1, 2] :=
  pcmToWav_wav_layout "AAEC" [0, 1, 2] 24000 rfl (by decide) (by decide)

/-- Claim C2: `fetchWithRetry` retries on HTTP 429 while fewer than 5
retries have been made, sleeping `2 ^ attempt` seconds (here in the
source's milliseconds: 1000, 2000, 4000, 8000, 16000) before each retry;
with a transport answering 429 three times then 200 it succeeds on the
4th attempt after a cumulative delay of (1+2+4) seconds = 7000 ms; with a
transport answering 429 six times it returns the final 429 response after
6 attempts rather than retrying further or raising. -/
theorem fetchWithRetry_backoff :
    (∀ (apiKey : String) (transport : Nat → Nat) (n st calls delay : Nat),
        apiKey ≠ "" → transport n = 429 → n < 5 →
        fetchWithRetry apiKey transport (n + 1) = .ok (st, calls, delay) →
        fetchWithRetry apiKey transport n =
          .ok (st, calls + 1, delay + 2 ^ n * 1000)) ∧
    (∀ (apiKey : String) (transport : Nat → Nat) (n : Nat),
        apiKey ≠ "" → ¬(transport n = 429 ∧ n < 5) →
        fetchWithRetry apiKey transport n = .ok (transport n, 1, 0)) ∧
    fetchWithRetry "key" (fun i => if i < 3 then 429 else 200) 0 =
      .ok (200, 4, 7000) ∧
    fetchWithRetry "key" (fun _ => 429) 0 = .ok (429, 6, 31000) := by
  refine ⟨?_, ?_, ?_, ?_⟩
  · intro apiKey transport n st calls delay hk h429 hn hrec
    rw [fetchWithRetry]
    rw [if_neg hk, dif_pos ⟨h429, hn⟩, hrec]
  · intro apiKey transport n hk hstop
    rw [fetchWithRetry]
    rw [if_neg hk, dif_neg hstop]
  · simp [fetchWithRetry]
  · simp [fetchWithRetry]

/-- Witness for C2's retry step: at attempt 2 of the 429-429-429-200
mock, one more retry happens after a 4000 ms sleep. -/
theorem fetchWithRetry_backoff_witness :
    fetchWithRetry "key" (fun i => if i < 3 then 429 else 200) 2 =
      .ok (200, 2, 4000) :=
  fetchWithRetry_backoff.1 "key" (fun i => if i < 3 then 429 else 200)
    2 200 1 0 (by decide) rfl (by decide) (by simp [fetchWithRetry])

/-- Claim C10: invoking Analyze with empty pasted text and no selected
image performs no remote call and only sets the prompt status message:
result, chat log, loading flag and generated image are unchanged. -/
theorem processPaper_empty_input (s : AppState) (reply : Except Unit String)
    (ht : s.inputText = "") (hi : s.selectedImage = none) :
    processPaper s reply = ({ s with statusMessage := emptyInputMsg },
      false, none) := by
  simp [processPaper, ht, hi]

/-- Witness for C10 at the initial state. -/
theorem processPaper_empty_input_witness :
    processPaper initState (.error ()) =
      ({ initState with statusMessage := emptyInputMsg }, false, none) :=
  processPaper_empty_input initState (.error ()) rfl rfl

/-- Counterexample to claim C3: on the fence-wrapped input the code's
strict `JSON.parse` fails (nothing strips the fence markers), so the
analyze path surfaces the failure message and no payload with
`summary = "x"` is ever produced — the result keeps its initial value. -/
theorem processPaper_fenced_input_fails :
    jsonParse "\x60\x60\x60json\n\x7b\"summary\":\"x\"\x7d\n\x60\x60\x60" =
      none ∧
    (processPaper { initState with inputText := "doc" }
        (.ok "\x60\x60\x60json\n\x7b\"summary\":\"x\"\x7d\n\x60\x60\x60")
      ).1.result = initResult ∧
    (processPaper { initState with inputText := "doc" }
        (.ok "\x60\x60\x60json\n\x7b\"summary\":\"x\"\x7d\n\x60\x60\x60")
      ).1.statusMessage = analyzeFailMsg :=
  ⟨rfl, rfl, rfl⟩

/-- Claim C3 as amended: response handling is a strict `JSON.parse` on
the raw model text with no fence-stripping, trimming or default
backfill.  An unparsable reply (such as the fenced input) produces no
payload at all — the failure message is surfaced and the result is left
unchanged — and on a successful parse a missing field is not replaced by
a default but keeps the value it had in the previous result (spread
merge). -/
theorem processPaper_strict_parse_no_backfill :
    (∀ (s : AppState) (t : String),
        ¬(s.inputText = "" ∧ s.selectedImage = none) → jsonParse t = none →
        processPaper s (.ok t) =
          ({ s with statusMessage := analyzeFailMsg, loading := false },
           true, none)) ∧
    (∀ (prev : AnalysisResult) (p : Json),
        jsonGet p "translation" = none →
        (mergeParsed prev p).translation = prev.translation) ∧
    (∀ (prev : AnalysisResult) (p : Json),
        jsonGet p "evidence" = none →
        (mergeParsed prev p).evidence = prev.evidence) := by
  refine ⟨?_, ?_, ?_⟩
  · intro s t hne hparse
    simp [processPaper, hne, hparse]
  · intro prev p h
    simp [mergeParsed, h]
  · intro prev p h
    simp [mergeParsed, h]

/-- Witness for the amended C3: the fenced input takes the failure
branch, and a parsed payload carrying only `summary` leaves the previous
translation in place rather than substituting a default. -/
theorem processPaper_strict_parse_no_backfill_witness :
    processPaper { initState with inputText := "doc" }
        (.ok "\x60\x60\x60json\n\x7b\"summary\":\"x\"\x7d\n\x60\x60\x60") =
      ({ initState with
          inputText := "doc",
          statusMessage := analyzeFailMsg, loading := false },
       true, none) ∧
    (mergeParsed { initResult with translation := Json.str "prior" }
        (Json.obj [("summary", Json.str "x")])).translation =
      Json.str "prior" :=
  ⟨processPaper_strict_parse_no_backfill.1 _ _ (by decide) rfl,
   processPaper_strict_parse_no_backfill.2.1 _ _ rfl⟩

/-- Counterexample to claim C4: a completed analysis (the reply parses,
the handler switches to the result tab) whose reply carries only
`summary` leaves `evidence` null while `summary` is truthy — the
fields are not both-absent-or-both-present — and the `translation` of an
earlier analysis is carried over instead of being replaced wholesale. -/
theorem processPaper_partial_merge_surfaced :
    (processPaper { initState with
        inputText := "doc",
        result := { initResult with translation := Json.str "old" } }
        (.ok "\x7b\"summary\":\"x\"\x7d")).1.activeTab = "result" ∧
    jsTruthy (processPaper { initState with
        inputText := "doc",
        result := { initResult with translation := Json.str "old" } }
        (.ok "\x7b\"summary\":\"x\"\x7d")).1.result.summary = true ∧
    (processPaper { initState with
        inputText := "doc",
        result := { initResult with translation := Json.str "old" } }
        (.ok "\x7b\"summary\":\"x\"\x7d")).1.result.evidence = Json.null ∧
    (processPaper { initState with
        inputText := "doc",
        result := { initResult with translation := Json.str "old" } }
        (.ok "\x7b\"summary\":\"x\"\x7d")).1.result.translation =
      Json.str "old" :=
  ⟨rfl, rfl, rfl, rfl⟩

/-- Claim C4 as amended: a completed Analyze spread-merges the parsed
payload over the previous result rather than replacing it wholesale:
every field present in the reply is overwritten, every field absent from
it (including `relatedInfo`) keeps its previous value, so `summary` and
`evidence` may be present or absent independently of one another. -/
theorem processPaper_success_is_spread_merge :
    ∀ (s : AppState) (t : String) (p : Json),
      ¬(s.inputText = "" ∧ s.selectedImage = none) → jsonParse t = some p →
      (processPaper s (.ok t)).1.result = mergeParsed s.result p ∧
      (processPaper s (.ok t)).1.activeTab = "result" := by
  intro s t p hne hparse
  constructor
  · simp [processPaper, hne, hparse]
  · simp [processPaper, hne, hparse]

/-- Witness for the amended C4 at a reply carrying only `summary`. -/
theorem processPaper_success_is_spread_merge_witness :
    (processPaper { initState with inputText := "doc" }
        (.ok "\x7b\"summary\":\"x\"\x7d")).1.result =
      mergeParsed initResult (Json.obj [("summary", Json.str "x")]) ∧
    (processPaper { initState with inputText := "doc" }
        (.ok "\x7b\"summary\":\"x\"\x7d")).1.activeTab = "result" :=
  processPaper_success_is_spread_merge _ _ _ (by decide) rfl

/-- Counterexample to claim C5: a stale Search-Related completion,
started for an earlier analysis (`summary = "sumA"`), lands while the
current result is a newer analysis (`summary = "sumB"` with its own
fresh `relatedInfo`); the completion handler overwrites the newer
`relatedInfo` with the stale text — no identity check guards the merge. -/
theorem searchRelatedWorks_stale_overwrite :
    relatedText (searchRelatedWorks
        { initState with result :=
            { summary := Json.str "sumB", translation := Json.str "",
              evidence := Json.null,
              relatedInfo := relatedInfoJson "fresh B digest" [] } }
        (some (Json.obj [("summary", Json.str "sumA")]))
        (.ok ("stale A digest", []))).result.relatedInfo =
      some "stale A digest" ∧
    (searchRelatedWorks
        { initState with result :=
            { summary := Json.str "sumB", translation := Json.str "",
              evidence := Json.null,
              relatedInfo := relatedInfoJson "fresh B digest" [] } }
        (some (Json.obj [("summary", Json.str "sumA")]))
        (.ok ("stale A digest", []))).result.summary = Json.str "sumB" ∧
    ¬ (searchRelatedWorks
        { initState with result :=
            { summary := Json.str "sumB", translation := Json.str "",
              evidence := Json.null,
              relatedInfo := relatedInfoJson "fresh B digest" [] } }
        (some (Json.obj [("summary", Json.str "sumA")]))
        (.ok ("stale A digest", []))).result.relatedInfo =
      relatedInfoJson "fresh B digest" [] :=
  ⟨rfl, rfl, fun h => absurd (congrArg relatedText h) (by decide)⟩

/-- Claim C5 as amended: the Search-Related completion handler merges
unconditionally — whatever result the search was started for
(`currentResult` feeds only the request prompt), the current result's
`relatedInfo` is overwritten with the freshly received digest; there is
no stale-result guard. -/
theorem searchRelatedWorks_merge_unguarded :
    ∀ (s : AppState) (currentResult : Option Json) (text : String)
      (sources : List (Option String × Option String)),
      (searchRelatedWorks s currentResult
          (.ok (text, sources))).result.relatedInfo =
        relatedInfoJson text sources := by
  intro s currentResult text sources
  rfl

/-- Claim C6: when the model reply of Analyze is unparseable, the
failure message is surfaced as the status message, the prior result is
left completely unchanged, no payload reaches the result state, and no
related-work search is spawned. -/
theorem processPaper_malformed_reply_atomic (s : AppState) (t : String)
    (hne : ¬(s.inputText = "" ∧ s.selectedImage = none))
    (hparse : jsonParse t = none) :
    (processPaper s (.ok t)).1.result = s.result ∧
    (processPaper s (.ok t)).1.statusMessage = analyzeFailMsg ∧
    (processPaper s (.ok t)).1.activeTab = s.activeTab ∧
    (processPaper s (.ok t)).2.2 = none := by
  refine ⟨?_, ?_, ?_, ?_⟩ <;> simp [processPaper, hne, hparse]

/-- Witness for C6 on unparseable garbage text. -/
theorem processPaper_malformed_reply_atomic_witness :
    (processPaper { initState with
        inputText := "doc",
        result := { initResult with summary := Json.str "prior" } }
        (.ok "garbage")).1.result =
      { initResult with summary := Json.str "prior" } ∧
    (processPaper { initState with
        inputText := "doc",
        result := { initResult with summary := Json.str "prior" } }
        (.ok "garbage")).1.statusMessage = analyzeFailMsg ∧
    (processPaper { initState with
        inputText := "doc",
        result := { initResult with summary := Json.str "prior" } }
        (.ok "garbage")).1.activeTab = "input" ∧
    (processPaper { initState with
        inputText := "doc",
        result := { initResult with summary := Json.str "prior" } }
        (.ok "garbage")).2.2 = none :=
  processPaper_malformed_reply_atomic _ "garbage" (by decide) rfl

/-- Claim C7: Search-Related on success changes only the `relatedInfo`
field of the result (summary, translation and evidence are untouched)
and clears the status message; on any failure the whole state is
unchanged except for the cleared status message — no field of the
result is modified and no user-visible error is surfaced. -/
theorem searchRelatedWorks_frame :
    (∀ (s : AppState) (currentResult : Option Json) (text : String)
        (sources : List (Option String × Option String)),
        searchRelatedWorks s currentResult (.ok (text, sources)) =
          { s with
            result := { s.result with
              relatedInfo := relatedInfoJson text sources },
            statusMessage := "" }) ∧
    (∀ (s : AppState) (currentResult : Option Json),
        searchRelatedWorks s currentResult (.error ()) =
          { s with statusMessage := "" }) :=
  ⟨fun _ _ _ _ => rfl, fun _ _ => rfl⟩

/-- Claim C8: for a non-blank question, AskQuestion appends exactly one
user message carrying the question and exactly one model message — the
reply text on success, the apology string on failure — at the end of the
chat log (existing messages are untouched), clears the question box, and
resets the loading flag. -/
theorem askQuestion_turn_discipline (s : AppState)
    (hq : ¬ jsTrim s.userQuestion = "") :
    (∀ t : String, askQuestion s (.ok t) =
      { s with
        chatMessages := s.chatMessages ++
          [ChatMessage.mk "user" s.userQuestion, ChatMessage.mk "model" t],
        userQuestion := "", loading := false }) ∧
    askQuestion s (.error ()) =
      { s with
        chatMessages := s.chatMessages ++
          [ChatMessage.mk "user" s.userQuestion,
           ChatMessage.mk "model" apologyMsg],
        userQuestion := "", loading := false } := by
  constructor
  · intro t
    simp [askQuestion, hq]
  · simp [askQuestion, hq]

/-- Witness for C8 at the question "q", on both outcomes. -/
theorem askQuestion_turn_discipline_witness :
    askQuestion { initState with userQuestion := "q" } (.ok "the answer") =
      { initState with
        chatMessages := [ChatMessage.mk "user" "q",
                         ChatMessage.mk "model" "the answer"],
        userQuestion := "", loading := false } ∧
    askQuestion { initState with userQuestion := "q" } (.error ()) =
      { initState with
        chatMessages := [ChatMessage.mk "user" "q",
                         ChatMessage.mk "model" apologyMsg],
        userQuestion := "", loading := false } :=
  ⟨(askQuestion_turn_discipline _ (by decide)).1 "the answer",
   (askQuestion_turn_discipline _ (by decide)).2⟩

/-- Claim C9: invoking SynthesizeSpeech while a playback is active is a
no-op (no state change, no remote call, nothing queued); and on any
failure of the speech path — a transport/extraction throw or malformed
base64 audio rejected by the decoder — the playing flag is reset to
false, a status message is set, no playback starts, and the handler
returns normally. -/
theorem playSummaryAudio_guard_and_failure :
    (∀ (s : AppState) (reply : Except Unit String),
        s.isAudioPlaying = true →
        playSummaryAudio s reply = (s, false, none)) ∧
    (∀ s : AppState, s.isAudioPlaying = false →
        playSummaryAudio s (.error ()) =
          ({ s with isAudioPlaying := false,
                    statusMessage := audioFailMsg }, true, none)) ∧
    (∀ (s : AppState) (b64 : String),
        s.isAudioPlaying = false → atob b64 = none →
        playSummaryAudio s (.ok b64) =
          ({ s with isAudioPlaying := false,
                    statusMessage := audioFailMsg }, true, none)) := by
  refine ⟨?_, ?_, ?_⟩
  · intro s reply hp
    simp [playSummaryAudio, hp]
  · intro s hp
    simp [playSummaryAudio, hp]
  · intro s b64 hp hb
    simp [playSummaryAudio, hp, pcmToWav, hb]

/-- Witness for C9: the no-op while playing, and the malformed-base64
input "!" aborting the playback path. -/
theorem playSummaryAudio_guard_and_failure_witness :
    playSummaryAudio { initState with isAudioPlaying := true }
        (.ok "AAEC") =
      ({ initState with isAudioPlaying := true }, false, none) ∧
    playSummaryAudio initState (.ok "!") =
      ({ initState with isAudioPlaying := false,
                        statusMessage := audioFailMsg }, true, none) :=
  ⟨playSummaryAudio_guard_and_failure.1 _ (.ok "AAEC") rfl,
   playSummaryAudio_guard_and_failure.2.2 initState "!" rfl rfl⟩

end PaperInsight
